import Mathlib

/-!
Verification development for the VISTA travel-survey preprocessing
repository (src/preprocess.py, src/models.py).

The Python source is shallowly embedded: each helper of `Preprocess` and
each accessor of `DataManager` that the claims touch is translated into an
executable Lean definition.  Numeric survey fields are modelled with `ℚ`
(the values involved are small decimals), Python `None`/`NaN` with
`Option`, and a Python exception with `Except.error`.
-/

/-- Python substring containment: `needle in hay` over character lists. -/
def containsSub (needle : List Char) : List Char → Bool
  | [] => needle.isEmpty
  | c :: t => needle.isPrefixOf (c :: t) || containsSub needle t

/-- Characters matched by the regex character class for digits and commas. -/
def isDigitComma (c : Char) : Bool := c.isDigit || c == ','

/-- Numeric value of a digit string (most significant first). -/
def digitsToNat (ds : List Char) : Nat :=
  ds.foldl (fun acc c => acc * 10 + (c.toNat - 48)) 0

/-- Python `int(group.replace(",", ""))` on a regex group drawn from the
class of digits and commas: stripping the commas of a comma-only group
leaves the empty string, which `int` rejects with a `ValueError`. -/
def int_of_group (run : List Char) : Except String Nat :=
  let ds := run.filter (fun c => c != ',')
  if ds.isEmpty then .error "ValueError" else .ok (digitsToNat ds)

/-- Attempt the bracket pattern at the head of the list: an opening
parenthesis, a dollar sign, a nonempty run of digits/commas, a hyphen, a
dollar sign, a second nonempty run, a closing parenthesis.  Because the
character class excludes the hyphen and the closing parenthesis, the greedy
match of the regex engine coincides with taking the maximal run, so this
deterministic scan has exactly the semantics of the source pattern. -/
def bracketAt (cs : List Char) : Option (List Char × List Char) :=
  match cs with
  | '(' :: '$' :: rest =>
    let r1 := rest.takeWhile isDigitComma
    let rest1 := rest.dropWhile isDigitComma
    if r1.isEmpty then none else
      match rest1 with
      | '-' :: '$' :: rest2 =>
        let r2 := rest2.takeWhile isDigitComma
        let rest3 := rest2.dropWhile isDigitComma
        if r2.isEmpty then none else
          match rest3 with
          | ')' :: _ => some (r1, r2)
          | _ => none
      | _ => none
  | _ => none

/-- Leftmost search for the bracket pattern, as performed by the
source regex search over the income-group text. -/
def find_bracket : List Char → Option (List Char × List Char)
  | [] => none
  | c :: t =>
    match bracketAt (c :: t) with
    | some x => some x
    | none => find_bracket t

/-- Embeds `Preprocess._find_avg_yearly`.  `none` input models a
missing (`pd.isna`) value; the result is `Except` because `int("")` inside
the bracket arithmetic can raise (never on survey vocabulary). -/
def find_avg_yearly (val : Option String) : Except String (Option Nat) :=
  match val with
  | none => .ok none
  | some text =>
    let cs := text.toList
    if containsSub ("or more".toList) cs then .ok (some 450000)
    else
      match find_bracket cs with
      | some (r1, r2) => do
        let low ← int_of_group r1
        let high ← int_of_group r2
        .ok (some ((low + high) / 2))
      | none => .ok none

/-- Embeds `Preprocess._personal_income`. -/
def personal_income (text : String) : Except String (Option Nat) :=
  if text = "Negative income" then .ok (some 0)
  else if text = "Nil income" then .ok none
  else if containsSub ("or more".toList) text.toList then .ok (some 200000)
  else
    match find_bracket text.toList with
    | some (r1, r2) => do
      let low ← int_of_group r1
      let high ← int_of_group r2
      .ok (some ((low + high) / 2))
    | none => .ok none

/-- Syntactic analysis of a plain signed decimal: the sign, the integer
part, the fraction digits and the fraction length, all as `Bool`/`Nat` so
that concrete inputs evaluate inside the kernel. -/
def parseDecimal (cs : List Char) : Option (Bool × Nat × Nat × Nat) :=
  let signed : Bool × List Char :=
    match cs with
    | '-' :: t => (true, t)
    | _ => (false, cs)
  let d1 := signed.2.takeWhile Char.isDigit
  let rest := signed.2.dropWhile Char.isDigit
  match rest with
  | [] => if d1.isEmpty then none else some (signed.1, digitsToNat d1, 0, 0)
  | '.' :: t =>
    let d2 := t.takeWhile Char.isDigit
    let rest2 := t.dropWhile Char.isDigit
    if rest2.isEmpty && (!d1.isEmpty || !d2.isEmpty) then
      some (signed.1, digitsToNat d1, digitsToNat d2, d2.length)
    else none
  | _ => none

/-- Rational value of an analysed decimal. -/
def ratOfDecimal (d : Bool × Nat × Nat × Nat) : ℚ :=
  let q : ℚ := (d.2.1 : ℚ) + (d.2.2.1 : ℚ) / (10 : ℚ) ^ d.2.2.2
  if d.1 then -q else q

/-- Python `float(text)` restricted to plain signed decimal forms
(the survey distance/time fields hold plain decimals or `"Missing"`);
any other text is rejected, as `float` rejects it with a `ValueError`. -/
def parseFloat (cs : List Char) : Option ℚ :=
  (parseDecimal cs).map ratOfDecimal

/-- Embeds `Preprocess._to_float`: the sentinel `"Missing"` becomes null,
anything else goes through `float`, which raises on non-numeric text. -/
def to_float (val : String) : Except String (Option ℚ) :=
  if val = "Missing" then .ok none
  else
    match parseFloat val.toList with
    | some q => .ok (some q)
    | none => .error "ValueError"

/-- Python `int(text)` on a nonnegative digit string (age-band starts are
nonnegative); non-digit text is rejected with a `ValueError`. -/
def parsePyNat (cs : List Char) : Option Nat :=
  if cs.isEmpty then none
  else if cs.all Char.isDigit then some (digitsToNat cs) else none

/-- The text before the first occurrence of `needle` (the whole text when
`needle` is absent): Python `text.split(needle)[0]`. -/
def splitFirst (needle : List Char) : List Char → List Char
  | [] => []
  | c :: t => if needle.isPrefixOf (c :: t) then [] else c :: splitFirst needle t

/-- Embeds `Preprocess._convert_age_to_decade`: special-case `"100+"`,
otherwise parse the number before the arrow and round down to the decade;
`int` on a malformed label raises. -/
def convert_age_to_decade (age_str : String) : Except String String :=
  if age_str = "100+" then .ok "100+"
  else
    let start_age_str := splitFirst ("->".toList) age_str.toList
    match parsePyNat start_age_str with
    | some start_age =>
      let decade_start := (start_age / 10) * 10
      .ok (toString decade_start ++ "->" ++ toString (decade_start + 9))
    | none => .error "ValueError"

/-- Embeds `Preprocess._categorise_melbourne_zone`; `none` models a
missing (`pd.isna`) subregion value. -/
def categorise_melbourne_zone (subregion : Option String) : String :=
  match subregion with
  | none => "Unknown"
  | some s =>
    let cs := s.toList
    if containsSub ("Inner".toList) cs then "Inner"
    else if containsSub ("Middle".toList) cs then "Middle"
    else if containsSub ("Outer".toList) cs then "Outer"
    else if !(containsSub ("Melbourne".toList) cs) then "Regional"
    else "Other"

/-- The `zone` column built by `Preprocess.prep_households`: the zone
classifier applied to every `homesubregion_ASGS` value. -/
def zoneColumn (homesubregion_ASGS : List (Option String)) : List String :=
  homesubregion_ASGS.map categorise_melbourne_zone

/-- A Python value that is either a string or a list of strings, as the two
sides of the `purp == discretionary` comparison in the source. -/
inductive PyStrOrList where
  | str (s : String)
  | list (xs : List String)
deriving DecidableEq

/-- Python `==` between such values: strings compare by contents, a string
and a list are never equal. -/
def pyEq : PyStrOrList → PyStrOrList → Bool
  | .str a, .str b => a == b
  | .list a, .list b => a == b
  | _, _ => false

/-- Embeds `Preprocess._categorise_trip_purpose`.  The discretionary
branch compares the scalar purpose with the whole list, exactly as the
source line `elif purp == discretionary` does. -/
def categorise_trip_purpose (purp : Option String) : String :=
  match purp with
  | none => "Unknown"
  | some p =>
    let mandatory := ["Work Related", "Education"]
    let maintenance := ["Buy Something", "Personal Business",
      "Pick-up or Deliver Something", "Pick-up or Drop-off Someone",
      "Accompany Someone"]
    let discretionary := ["Social", "Recreational"]
    if p = "At Home" then "Home"
    else if mandatory.contains p then "Mandatory"
    else if maintenance.contains p then "Maintenance"
    else if pyEq (.str p) (.list discretionary) then "Discretionary"
    else "Other"

/-- Trip start hour, `startime / 60`, from `Preprocess.prep_trips`. -/
def start_hour (startime : ℚ) : ℚ := startime / 60

/-- The `is_morning_peak` column of `Preprocess.prep_trips`. -/
def is_morning_peak (x : ℚ) : Nat := if 7 ≤ x ∧ x ≤ 9 then 1 else 0

/-- The `is_evening_peak` column of `Preprocess.prep_trips`. -/
def is_evening_peak (x : ℚ) : Nat := if 17 ≤ x ∧ x ≤ 19 then 1 else 0

/-- The `is_peak_hour` column of `Preprocess.prep_trips`: the source ORs
the morning-peak column with the morning-peak column. -/
def is_peak_hour_flag (x : ℚ) : Nat := is_morning_peak x ||| is_morning_peak x

namespace Pipeline

/-! The shared result store of the feature pipeline, `Preprocess.processed_data`,
modelled by the set of table names it holds; the body of each step is abstracted
to the dependency handling and the name it stores, which is all the
on-demand-triggering claims are about. -/

/-- The names present in `self.processed_data`. -/
abbrev Store := List String

/-- Step `Preprocess.prep_households` stores the households table. -/
def prep_households (s : Store) : Store := "households" :: s

/-- Step `Preprocess.prep_persons` stores the persons table. -/
def prep_persons (s : Store) : Store := "persons" :: s

/-- Step `Preprocess.prep_trips` stores the trips table. -/
def prep_trips (s : Store) : Store := "trips" :: s

/-- Step `Preprocess.prep_person_trip`: triggers `prep_persons` when the persons
table is absent; the guard for the trips table only evaluates the bound
method `self.prep_trips` without calling it, so the trips table is never
produced there, and the following lookup of `processed_data["trips"]`
raises a `KeyError` when the table is absent. -/
def prep_person_trip (s : Store) : Except String Store :=
  let s1 := if s.contains "persons" then s else prep_persons s
  let s2 := s1
  if s2.contains "trips" then .ok ("persons_trips_summary" :: s2)
  else .error "KeyError: trips"

/-- Step `Preprocess.create_combined_dataset`: triggers `prep_households` and
`prep_person_trip` (both with real calls) when their outputs are absent. -/
def create_combined_dataset (s : Store) : Except String Store := do
  let s1 := if s.contains "households" then s else prep_households s
  let s2 ← if s1.contains "persons_trips_summary" then .ok s1
           else prep_person_trip s1
  .ok ("master" :: s2)

/-- Step `Preprocess.create_compare_dataset`: triggers `prep_trips` and
`create_combined_dataset` (both with real calls) when needed. -/
def create_compare_dataset (s : Store) : Except String Store := do
  let s1 := if s.contains "trips" then s else prep_trips s
  let s2 ← if s1.contains "master" then .ok s1
           else create_combined_dataset s1
  .ok ("education_trips" :: "work_trips" :: s2)

end Pipeline

namespace Caching

/-! The memoization layer of `DataManager`.  The content of a returned
dataframe is irrelevant to the caching claims, so each materialized frame
is represented by a distinct identifier drawn from a counter: two calls
return the same identifier exactly when the source returns the same cached
object rather than building a new frame. -/

/-- The caching-relevant state of a `DataManager`: its `_cache` mapping and
a counter supplying the identity of the next freshly built frame. -/
structure DM where
  cache : List (String × Nat)
  counter : Nat
deriving DecidableEq

/-- Lookup in `self._cache`. -/
def cacheLookup (c : List (String × Nat)) (k : String) : Option Nat :=
  match c with
  | [] => none
  | (k2, v) :: t => if k2 == k then some v else cacheLookup t k

/-- Building a brand-new dataframe (filter, copy, merge...): yields a fresh
identity. -/
def freshFrame (dm : DM) : Nat × DM :=
  (dm.counter, { dm with counter := dm.counter + 1 })

/-- The shared shape of the three memoized accessors: return the cached
value when the key is present, otherwise build the frame and store it. -/
def cachedFetch (key : String) (dm : DM) : Nat × DM :=
  match cacheLookup dm.cache key with
  | some v => (v, dm)
  | none =>
    let r := freshFrame dm
    (r.1, { r.2 with cache := (key, r.1) :: r.2.cache })

/-- Python `str` of a bool, as interpolated into the source cache keys. -/
def pyBoolStr (b : Bool) : String := if b then "True" else "False"

/-- Embeds the caching behaviour of `DataManager.get_work_trips`. -/
def get_work_trips (include_person_data include_household_data : Bool)
    (dm : DM) : Nat × DM :=
  cachedFetch
    ("work_trips_" ++ pyBoolStr include_person_data ++ "_" ++
      pyBoolStr include_household_data) dm

/-- Embeds the caching behaviour of `DataManager.get_education_trips`. -/
def get_education_trips (include_person_data include_household_data : Bool)
    (dm : DM) : Nat × DM :=
  cachedFetch
    ("education_trips_" ++ pyBoolStr include_person_data ++ "_" ++
      pyBoolStr include_household_data) dm

/-- Embeds the caching behaviour of `DataManager.get_journey_dict`. -/
def get_journey_dict (dm : DM) : Nat × DM :=
  cachedFetch "journey_dict" dm

/-- Accessor `DataManager.get_spatial_data`: the body copies a column subset of the
stops frame and returns it; it never consults or writes `_cache`. -/
def get_spatial_data (trip_type : Option String) (dm : DM) : Nat × DM :=
  freshFrame dm

/-- Accessor `DataManager.get_temporal_data`: no caching in the source. -/
def get_temporal_data (trip_type : Option String) (dm : DM) : Nat × DM :=
  freshFrame dm

/-- Accessor `DataManager.get_modal_data`: no caching in the source. -/
def get_modal_data (trip_type : Option String) (dm : DM) : Nat × DM :=
  freshFrame dm

/-- Accessor `DataManager.get_stop_data`: no caching in the source. -/
def get_stop_data (trip_type : Option String) (dm : DM) : Nat × DM :=
  freshFrame dm

/-- Accessor `DataManager.get_journey_segments`: no caching in the source. -/
def get_journey_segments (journey_type : Option String) (dm : DM) : Nat × DM :=
  freshFrame dm

/-- A `DataManager` fresh out of `__init__`: empty cache. -/
def initDM : DM := ⟨[], 0⟩

/-- Repeating a `cachedFetch` returns the value just stored and leaves the
state unchanged. -/
theorem cachedFetch_idem (key : String) (dm : DM) :
    cachedFetch key ((cachedFetch key dm).2) = cachedFetch key dm := by
  unfold cachedFetch
  cases h : cacheLookup dm.cache key with
  | some v => simp [h]
  | none => simp [h, cacheLookup, freshFrame]

end Caching

namespace Frames

/-! A small relational model of the pandas fragment `get_education_trips`
exercises: frames with named columns, purpose filtering, column selection
(including the nested-list column key of the source) and left merge. -/

/-- A cell value: a string, a number, or a null (`NaN`). -/
inductive PVal where
  | s (v : String)
  | n (v : ℚ)
  | null
deriving DecidableEq

/-- Pandas element-wise equality: nulls compare unequal to everything,
values of different kinds compare unequal. -/
def pvEq : PVal → PVal → Bool
  | .s a, .s b => a == b
  | .n a, .n b => a == b
  | _, _ => false

/-- A row as an association list from column name to value. -/
abbrev Row := List (String × PVal)

/-- The value of a column in a row (frames are well-formed, so a name
missing from a row does not arise; it is read as null). -/
def rowGet (r : Row) (c : String) : PVal :=
  match r with
  | [] => .null
  | (k, v) :: t => if k == c then v else rowGet t c

/-- A dataframe: its column names and its rows. -/
structure Frame where
  cols : List String
  rows : List Row
deriving DecidableEq

/-- Pandas `df[df[c] == v]`: keep the rows whose column `c` equals `v`. -/
def filterEq (f : Frame) (c : String) (v : PVal) : Frame :=
  ⟨f.cols, f.rows.filter (fun r => pvEq (rowGet r c) v)⟩

/-- Pandas `df[cols]` with plain string keys. -/
def selectStrCols (f : Frame) (cs : List String) : Frame :=
  ⟨cs, f.rows.map (fun r => cs.map (fun c => (c, rowGet r c)))⟩

/-- A column key as written in the source: a plain name or a nested list
of names. -/
inductive ColKey where
  | name (c : String)
  | nested (cs : List String)
deriving DecidableEq

/-- Pandas `df[keys]` where a key may be a nested list: pandas hashes each key, and
a list key raises `TypeError: unhashable type: list`. -/
def selectCols (f : Frame) (keys : List ColKey) : Except String Frame :=
  if keys.any (fun k => match k with | .nested _ => true | _ => false) then
    .error "TypeError: unhashable type: list"
  else
    .ok (selectStrCols f (keys.filterMap
      (fun k => match k with | .name c => some c | _ => none)))

/-- Pandas `pd.merge(l, r, on=key, how="left")` for a right frame whose key column
is unique (the id columns used here): every left row is kept, extended with
the other columns of the first matching right row, or with nulls when no right
row matches. -/
def mergeLeft (l r : Frame) (key : String) : Frame :=
  let rcols := r.cols.filter (fun c => c != key)
  ⟨l.cols ++ rcols,
    l.rows.map (fun lr =>
      match r.rows.find? (fun rr => pvEq (rowGet rr key) (rowGet lr key)) with
      | some rr => lr ++ rcols.map (fun c => (c, rowGet rr c))
      | none => lr ++ rcols.map (fun c => (c, PVal.null)))⟩

/-- The person columns selected by `get_education_trips`. -/
def eduPersonCols : List String :=
  ["persid", "agegroup", "sex", "studying", "mainact", "carlicence",
    "relationship"]

/-- The household columns selected by `get_education_trips`. -/
def eduHouseholdCols : List String :=
  ["hhid", "hhinc_group", "totalvehs", "totalbikes", "hhsize", "dwelltype",
    "owndwell", "homelga", "youngestgroup_5", "aveagegroup_5",
    "oldestgroup_5"]

/-- Embeds `DataManager.get_education_trips` (the frame computation; the
memoization layer is modelled separately): filter the trips by purpose
`"Education"`, optionally left-join person columns on `persid`, and
optionally left-join household columns on `hhid` — fetching `hhid` through
the persons frame first when the trips lack it, with the nested
column key written in the source, `["persid", ["hhid"]]`. -/
def get_education_trips (include_person_data include_household_data : Bool)
    (trips persons households : Frame) : Except String Frame := do
  let education0 := filterEq trips "destpurp1" (.s "Education")
  let education1 :=
    if include_person_data then
      mergeLeft education0 (selectStrCols persons eduPersonCols) "persid"
    else education0
  if include_household_data then
    let education2 ←
      if education1.cols.contains "hhid" then .ok education1
      else do
        let pcols ← selectCols persons
          [ColKey.name "persid", ColKey.nested ["hhid"]]
        .ok (mergeLeft education1 pcols "persid")
    .ok (mergeLeft education2 (selectStrCols households eduHouseholdCols)
      "hhid")
  else
    .ok education1

/-- A trips frame without an `hhid` column, holding one Education trip. -/
def tripsNoHhid : Frame :=
  ⟨["tripid", "persid", "destpurp1"],
    [[("tripid", .n 1), ("persid", .s "Y12H1P1"), ("destpurp1", .s "Education")],
     [("tripid", .n 2), ("persid", .s "Y12H1P1"), ("destpurp1", .s "Work Related")]]⟩

/-- A persons frame holding the owning person and a household reference. -/
def personsSmall : Frame :=
  ⟨["persid", "hhid", "agegroup", "sex", "studying", "mainact", "carlicence",
     "relationship"],
    [[("persid", .s "Y12H1P1"), ("hhid", .n 10), ("agegroup", .s "20->24"),
      ("sex", .s "F"), ("studying", .s "Yes"), ("mainact", .s "Study"),
      ("carlicence", .s "No Licence"), ("relationship", .s "Self")]]⟩

/-- A households frame holding the referenced household. -/
def householdsSmall : Frame :=
  ⟨["hhid", "hhinc_group", "totalvehs", "totalbikes", "hhsize", "dwelltype",
     "owndwell", "homelga", "youngestgroup_5", "aveagegroup_5",
     "oldestgroup_5"],
    [[("hhid", .n 10), ("hhinc_group", .s "Nil income"), ("totalvehs", .n 1),
      ("totalbikes", .n 0), ("hhsize", .n 2), ("dwelltype", .s "House"),
      ("owndwell", .s "Owned"), ("homelga", .s "Melbourne"),
      ("youngestgroup_5", .s "20->24"), ("aveagegroup_5", .s "20->24"),
      ("oldestgroup_5", .s "25->29")]]⟩

end Frames

namespace PersonTrip

/-! Value-level model of `Preprocess.prep_person_trip`: the per-person trip
summary, the ratio columns with pandas division semantics (`inf`/`NaN` on a
zero denominator), the `replace`/`fillna` normalizations, and the left
merge of the summary onto the persons table. -/

/-- A pandas float cell: a number, `NaN`, or a signed infinity. -/
inductive PFloat where
  | num (q : ℚ)
  | nan
  | inf
  | ninf
deriving DecidableEq

/-- Pandas division: `0/0` is `NaN`, `x/0` is a signed infinity. -/
def pdiv (a b : ℚ) : PFloat :=
  if b = 0 then (if a = 0 then .nan else if 0 < a then .inf else .ninf)
  else .num (a / b)

/-- Pandas `replace([np.inf, -np.inf], 0)` on one cell. -/
def replaceInfZero : PFloat → PFloat
  | .inf => .num 0
  | .ninf => .num 0
  | x => x

/-- Pandas `fillna(0)` on one cell. -/
def fillnaZero : PFloat → PFloat
  | .nan => .num 0
  | x => x

/-- The columns of the enriched trips frame that the aggregation reads.
`travtime` is converted by `_to_float` but never imputed, so it may be
null; `cumdist` is imputed with the median, so it is a number. -/
structure TripRow where
  persid : String
  destpurp1 : Option String
  cumdist : ℚ
  travtime : Option ℚ
  is_peak_hour : ℚ
deriving DecidableEq

/-- A row of the enriched persons frame (only the key matters here). -/
structure PersonRow where
  persid : String
deriving DecidableEq

/-- One row of `trip_summary` for a person that has at least one trip:
counts and sums over the group of the person, the two purpose-filtered counts
(with the `fillna(0)` applied to absent purpose groups), and the three
ratio columns after the `replace`/`fillna` normalization. -/
structure SummaryRow where
  total_trips : ℚ
  total_distance : ℚ
  total_travel_time : ℚ
  total_peak_hour_trips : ℚ
  work_trips : ℚ
  edu_trips : ℚ
  peak_hour_ratio : PFloat
  avg_trip_distance : PFloat
  avg_trip_duration : PFloat
deriving DecidableEq

/-- The `trip_summary` relation as a per-key function: `groupby("persid")`
produces a group exactly for the persons owning at least one trip, so the
result is `none` for any other person.  Sums skip nulls, as pandas sums
do. -/
def tripSummaryFor (trips : List TripRow) (pid : String) : Option SummaryRow :=
  let g := trips.filter (fun t => t.persid == pid)
  if g.isEmpty then none
  else
    let n : ℚ := (g.length : ℚ)
    let dist := (g.map (fun t => t.cumdist)).sum
    let tt := (g.filterMap (fun t => t.travtime)).sum
    let peak := (g.map (fun t => t.is_peak_hour)).sum
    let wt : ℚ := ((g.filter (fun t => t.destpurp1 == some "Work Related")).length : ℚ)
    let et : ℚ := ((g.filter (fun t => t.destpurp1 == some "Education")).length : ℚ)
    some
      { total_trips := n
        total_distance := dist
        total_travel_time := tt
        total_peak_hour_trips := peak
        work_trips := wt
        edu_trips := et
        peak_hour_ratio := fillnaZero (replaceInfZero (pdiv peak n))
        avg_trip_distance := fillnaZero (replaceInfZero (pdiv dist n))
        avg_trip_duration := fillnaZero (replaceInfZero (pdiv tt n)) }

/-- A row of the merged `person_trips` frame. -/
structure PersonTripRow where
  persid : String
  total_trips : ℚ
  total_distance : ℚ
  total_travel_time : ℚ
  total_peak_hour_trips : ℚ
  work_trips : ℚ
  edu_trips : ℚ
  peak_hour_ratio : PFloat
  avg_trip_distance : PFloat
  avg_trip_duration : PFloat
deriving DecidableEq

/-- Embeds the merge-and-fill tail of `Preprocess.prep_person_trip`:
`pd.merge(persons, trip_summary, left_on="persid", right_index=True,
how="left")` keeps every person, a person absent from the summary gets
null summary cells, and the final `fillna(0)` over the summary columns
turns those nulls into zeros. -/
def personTripRowFor (trips : List TripRow) (p : PersonRow) :
    PersonTripRow :=
  match tripSummaryFor trips p.persid with
    | some s =>
      { persid := p.persid
        total_trips := s.total_trips
        total_distance := s.total_distance
        total_travel_time := s.total_travel_time
        total_peak_hour_trips := s.total_peak_hour_trips
        work_trips := s.work_trips
        edu_trips := s.edu_trips
        peak_hour_ratio := fillnaZero s.peak_hour_ratio
        avg_trip_distance := fillnaZero s.avg_trip_distance
        avg_trip_duration := fillnaZero s.avg_trip_duration }
    | none =>
      { persid := p.persid
        total_trips := 0
        total_distance := 0
        total_travel_time := 0
        total_peak_hour_trips := 0
        work_trips := 0
        edu_trips := 0
        peak_hour_ratio := .num 0
        avg_trip_distance := .num 0
        avg_trip_duration := .num 0 }

/-- The full merged frame: one output row per person. -/
def prep_person_trip (persons : List PersonRow) (trips : List TripRow) :
    List PersonTripRow :=
  persons.map (personTripRowFor trips)

/-- The merge never changes the key of a row. -/
theorem personTripRowFor_persid (trips : List TripRow) (p : PersonRow) :
    (personTripRowFor trips p).persid = p.persid := by
  unfold personTripRowFor
  cases tripSummaryFor trips p.persid <;> rfl

/-- A one-person persons table whose person has no trips. -/
def personsNoTrip : List PersonRow := [⟨"Y12H1P1"⟩]

/-- A trips table owned entirely by a different person. -/
def tripsOther : List TripRow :=
  [⟨"Y12H2P1", some "Work Related", 5, some 10, 1⟩]

/-- The merged row the zero-trip person receives. -/
def zeroRow : PersonTripRow :=
  ⟨"Y12H1P1", 0, 0, 0, 0, 0, 0, .num 0, .num 0, .num 0⟩

end PersonTrip

/-- Claim C1 (counterexample): the household income-group parser does not
map the bracket text to 84000; the source computes
`int((78000 + 90999) / 2)`, which truncates to 84499. -/
theorem c1_income_group_counterexample :
    find_avg_yearly (some "$1,500-$1,749 ($78,000-$90,999)") ≠
      .ok (some 84000) := by
  intro h
  have e : find_avg_yearly (some "$1,500-$1,749 ($78,000-$90,999)") =
      .ok (some 84499) := rfl
  rw [e] at h
  simp at h

/-- Claim C1 (amended): the household income-group parser maps a missing
value to null, maps the bracket text to 84499 (the truncated midpoint of
78000 and 90999), maps any text containing "or more" to 450000, and maps
every value that matches neither "or more" nor the bracket pattern to null
before imputation. -/
theorem c1_income_group_amended :
    find_avg_yearly none = .ok none ∧
    find_avg_yearly (some "$1,500-$1,749 ($78,000-$90,999)") =
      .ok (some 84499) ∧
    (∀ text : String, containsSub ("or more".toList) text.toList = true →
      find_avg_yearly (some text) = .ok (some 450000)) ∧
    (∀ text : String, containsSub ("or more".toList) text.toList = false →
      find_bracket text.toList = none →
      find_avg_yearly (some text) = .ok none) := by
  refine ⟨rfl, rfl, ?_, ?_⟩
  · intro t h
    simp only [find_avg_yearly]
    rw [h]
    rfl
  · intro t h1 h2
    simp only [find_avg_yearly]
    rw [h1, h2]
    rfl

/-- Claim C1 (witness): the amended parser facts evaluated on the "or more"
bracket and on unparseable text. -/
theorem c1_income_group_amended_witness :
    find_avg_yearly (some "$8,000 or more ($416,000 or more)") =
      .ok (some 450000) ∧
    find_avg_yearly (some "Missing") = .ok none :=
  ⟨c1_income_group_amended.2.2.1 _ rfl,
   c1_income_group_amended.2.2.2 _ rfl rfl⟩

/-- Claim C5 (counterexample): the personal-income parser does not map the
bracket text to 46800; the source computes `int((41600 + 51999) / 2)`,
which truncates to 46799. -/
theorem c5_personal_income_counterexample :
    personal_income "$800-$999 ($41,600-$51,999)" ≠ .ok (some 46800) := by
  intro h
  have e : personal_income "$800-$999 ($41,600-$51,999)" =
      .ok (some 46799) := rfl
  rw [e] at h
  simp at h

/-- Claim C5 (amended): the personal-income parser maps "Negative income"
to 0, "Nil income" to null before imputation, any text containing
"or more" to 200000, and the bracket text to 46799 (the truncated midpoint
of 41600 and 51999). -/
theorem c5_personal_income_amended :
    personal_income "Negative income" = .ok (some 0) ∧
    personal_income "Nil income" = .ok none ∧
    (∀ text : String, containsSub ("or more".toList) text.toList = true →
      personal_income text = .ok (some 200000)) ∧
    personal_income "$800-$999 ($41,600-$51,999)" = .ok (some 46799) := by
  refine ⟨rfl, rfl, ?_, rfl⟩
  intro t h
  by_cases h1 : t = "Negative income"
  · subst h1; exact absurd h (by decide)
  · by_cases h2 : t = "Nil income"
    · subst h2; exact absurd h (by decide)
    · simp only [personal_income, if_neg h1, if_neg h2]
      rw [h]
      rfl

/-- Claim C5 (witness): the "or more" rule evaluated on the top personal
income bracket. -/
theorem c5_personal_income_amended_witness :
    personal_income "$8,000 or more ($416,000 or more)" =
      .ok (some 200000) :=
  c5_personal_income_amended.2.2.1 _ rfl

/-- Claim C4 (counterexample): the coercion helpers do raise on malformed
text outside the survey vocabulary: `float("N/A")` and `int` on a
malformed age label both raise a `ValueError`. -/
theorem c4_coercion_counterexample :
    to_float "N/A" = .error "ValueError" ∧
    convert_age_to_decade "Missing" = .error "ValueError" :=
  ⟨rfl, rfl⟩

/-- Claim C4 (amended): the coercion helpers map the designated missing
sentinel to null and well-formed inputs to converted values, but they are
not total: text that is neither the sentinel nor well-formed raises a
`ValueError` instead of degrading to null. -/
theorem c4_coercion_functions :
    to_float "Missing" = .ok none ∧
    to_float "12.5" = .ok (some (25 / 2 : ℚ)) ∧
    to_float "N/A" = .error "ValueError" ∧
    convert_age_to_decade "100+" = .ok "100+" ∧
    convert_age_to_decade "20->24" = .ok "20->29" ∧
    convert_age_to_decade "Missing" = .error "ValueError" := by
  refine ⟨rfl, ?_, rfl, rfl, rfl, rfl⟩
  have h : to_float "12.5" = .ok (some (ratOfDecimal (false, 12, 5, 1))) := rfl
  rw [h]; norm_num [ratOfDecimal]

/-- A trips frame that does carry an `hhid` column. -/
def Frames.tripsWithHhid : Frames.Frame :=
  ⟨["tripid", "persid", "hhid", "destpurp1"],
    [[("tripid", .n 1), ("persid", .s "Y12H1P1"), ("hhid", .n 10),
      ("destpurp1", .s "Education")]]⟩

/-- Claim C2 (code-bug evaluation): run on an empty result store, the
person-trip aggregation step fails with a `KeyError` instead of triggering
trip enrichment, because the source evaluates `self.prep_trips` without
calling it; once the trips table is already present the step completes. -/
theorem c2_person_trip_dependency_bug :
    Pipeline.prep_person_trip [] = .error "KeyError: trips" ∧
    Pipeline.prep_person_trip ["trips"] =
      .ok ["persons_trips_summary", "persons", "trips"] :=
  ⟨rfl, rfl⟩

/-- Claim C3 (code-bug evaluation): with household data requested and no
`hhid` column on the filtered education trips, the accessor crashes on the
nested column key `["persid", ["hhid"]]`; with `hhid` present the same
call returns a frame. -/
theorem c3_education_household_join_bug :
    Frames.get_education_trips false true Frames.tripsNoHhid
      Frames.personsSmall Frames.householdsSmall =
      .error "TypeError: unhashable type: list" ∧
    (Frames.get_education_trips false true Frames.tripsWithHhid
      Frames.personsSmall Frames.householdsSmall).isOk = true :=
  ⟨rfl, rfl⟩

/-- Claim C6 (counterexample): the spatial accessor does not memoize — a
second call on a fresh manager builds a new frame rather than returning
the instance from the first call. -/
theorem c6_memoization_counterexample :
    (Caching.get_spatial_data none
        ((Caching.get_spatial_data none Caching.initDM).2)).1 ≠
      (Caching.get_spatial_data none Caching.initDM).1 := by
  decide

/-- Claim C6 (amended): only the work-trips, education-trips and
journey-dict accessors memoize (a second call with the same arguments
returns the stored instance and leaves the manager unchanged); the
spatial, temporal, modal, stop and journey-segments accessors never touch
the cache and rebuild their result on every call. -/
theorem c6_memoization :
    (∀ ip ih dm, Caching.get_work_trips ip ih
        ((Caching.get_work_trips ip ih dm).2) =
        Caching.get_work_trips ip ih dm) ∧
    (∀ ip ih dm, Caching.get_education_trips ip ih
        ((Caching.get_education_trips ip ih dm).2) =
        Caching.get_education_trips ip ih dm) ∧
    (∀ dm, Caching.get_journey_dict ((Caching.get_journey_dict dm).2) =
        Caching.get_journey_dict dm) ∧
    (∀ t dm, ((Caching.get_spatial_data t dm).2).cache = dm.cache ∧
      (Caching.get_spatial_data t
          ((Caching.get_spatial_data t dm).2)).1 ≠
        (Caching.get_spatial_data t dm).1) ∧
    (∀ t dm, ((Caching.get_temporal_data t dm).2).cache = dm.cache ∧
      (Caching.get_temporal_data t
          ((Caching.get_temporal_data t dm).2)).1 ≠
        (Caching.get_temporal_data t dm).1) ∧
    (∀ t dm, ((Caching.get_modal_data t dm).2).cache = dm.cache ∧
      (Caching.get_modal_data t ((Caching.get_modal_data t dm).2)).1 ≠
        (Caching.get_modal_data t dm).1) ∧
    (∀ t dm, ((Caching.get_stop_data t dm).2).cache = dm.cache ∧
      (Caching.get_stop_data t ((Caching.get_stop_data t dm).2)).1 ≠
        (Caching.get_stop_data t dm).1) ∧
    (∀ t dm, ((Caching.get_journey_segments t dm).2).cache = dm.cache ∧
      (Caching.get_journey_segments t
          ((Caching.get_journey_segments t dm).2)).1 ≠
        (Caching.get_journey_segments t dm).1) := by
  refine ⟨fun ip ih dm => Caching.cachedFetch_idem _ dm,
    fun ip ih dm => Caching.cachedFetch_idem _ dm,
    fun dm => Caching.cachedFetch_idem _ dm, ?_, ?_, ?_, ?_, ?_⟩ <;>
    · intro t dm
      exact ⟨rfl, by
        simp [Caching.get_spatial_data, Caching.get_temporal_data,
          Caching.get_modal_data, Caching.get_stop_data,
          Caching.get_journey_segments, Caching.freshFrame]⟩

/-- Claim C7: the overall peak flag is the OR of the morning flag with
itself, hence equals the morning flag; a trip in the evening window gets
evening flag 1 but overall peak flag 0. -/
theorem c7_peak_hour_flag :
    (∀ x : ℚ, is_peak_hour_flag x = is_morning_peak x) ∧
    (∀ x : ℚ, 17 ≤ x → x ≤ 19 →
      is_evening_peak x = 1 ∧ is_peak_hour_flag x = 0) := by
  constructor
  · intro x
    unfold is_peak_hour_flag is_morning_peak
    by_cases h : 7 ≤ x ∧ x ≤ 9 <;> simp [h]
  · intro x h17 h19
    have hm : is_morning_peak x = 0 := by
      unfold is_morning_peak
      rw [if_neg]
      rintro ⟨-, h9⟩
      linarith
    refine ⟨?_, ?_⟩
    · unfold is_evening_peak
      rw [if_pos ⟨h17, h19⟩]
    · unfold is_peak_hour_flag
      rw [hm]
      decide

/-- Claim C7 (witness): a trip starting at 18:00. -/
theorem c7_peak_hour_flag_witness :
    is_evening_peak 18 = 1 ∧ is_peak_hour_flag 18 = 0 :=
  c7_peak_hour_flag.2 18 (by norm_num) (by norm_num)

/-- Claim C8: the trip-purpose categorizer never returns "Discretionary"
(the scalar-against-list comparison is always false), and the two
discretionary purposes fall through to "Other". -/
theorem c8_discretionary_unreachable :
    (∀ purp : Option String,
      categorise_trip_purpose purp ≠ "Discretionary") ∧
    categorise_trip_purpose (some "Social") = "Other" ∧
    categorise_trip_purpose (some "Recreational") = "Other" := by
  refine ⟨?_, rfl, rfl⟩
  intro purp
  cases purp with
  | none => decide
  | some p =>
    simp only [categorise_trip_purpose]
    split_ifs with a b c d
    · decide
    · decide
    · decide
    · exact absurd d (by
        have he : pyEq (.str p) (.list ["Social", "Recreational"]) = false :=
          rfl
        simp [he])
    · decide

/-- Claim C9: in the person-trip aggregation, a person owning no trips
receives zeros in every summary column of the merged frame; in particular
the peak-hour ratio is the number 0, not NaN or an infinity. -/
theorem c9_zero_trip_person
    (persons : List PersonTrip.PersonRow) (trips : List PersonTrip.TripRow)
    (row : PersonTrip.PersonTripRow)
    (hrow : row ∈ PersonTrip.prep_person_trip persons trips)
    (hno : ∀ t ∈ trips, t.persid ≠ row.persid) :
    row.total_trips = 0 ∧ row.total_distance = 0 ∧
    row.total_travel_time = 0 ∧ row.total_peak_hour_trips = 0 ∧
    row.work_trips = 0 ∧ row.edu_trips = 0 ∧
    row.peak_hour_ratio = PersonTrip.PFloat.num 0 ∧
    row.avg_trip_distance = PersonTrip.PFloat.num 0 ∧
    row.avg_trip_duration = PersonTrip.PFloat.num 0 := by
  rcases List.mem_map.1 hrow with ⟨p, hp, heq⟩
  subst heq
  rw [PersonTrip.personTripRowFor_persid] at hno
  cases hs : PersonTrip.tripSummaryFor trips p.persid with
  | none => simp [PersonTrip.personTripRowFor, hs]
  | some s =>
    exfalso
    have hgroup :
        trips.filter (fun t => t.persid == p.persid) ≠ [] := by
      intro hnil
      unfold PersonTrip.tripSummaryFor at hs
      rw [hnil] at hs
      simp at hs
    rcases List.exists_mem_of_ne_nil _ hgroup with ⟨t, ht⟩
    have htt := List.mem_filter.1 ht
    have hpid : t.persid = p.persid := by simpa using htt.2
    exact hno t htt.1 hpid

/-- Claim C9 (witness): the single person of a one-person table with a
trips table entirely owned by someone else gets all-zero summary
columns. -/
theorem c9_zero_trip_person_witness :
    PersonTrip.zeroRow.total_trips = 0 ∧
    PersonTrip.zeroRow.total_distance = 0 ∧
    PersonTrip.zeroRow.total_travel_time = 0 ∧
    PersonTrip.zeroRow.total_peak_hour_trips = 0 ∧
    PersonTrip.zeroRow.work_trips = 0 ∧
    PersonTrip.zeroRow.edu_trips = 0 ∧
    PersonTrip.zeroRow.peak_hour_ratio = PersonTrip.PFloat.num 0 ∧
    PersonTrip.zeroRow.avg_trip_distance = PersonTrip.PFloat.num 0 ∧
    PersonTrip.zeroRow.avg_trip_duration = PersonTrip.PFloat.num 0 :=
  c9_zero_trip_person PersonTrip.personsNoTrip PersonTrip.tripsOther
    PersonTrip.zeroRow
    (by
      rw [show PersonTrip.prep_person_trip PersonTrip.personsNoTrip
            PersonTrip.tripsOther = [PersonTrip.zeroRow] from rfl]
      exact List.mem_singleton.2 rfl)
    (by decide)

/-- Claim C10: the zone classifier sends a missing subregion to the sixth
label "Unknown", never produced for a present value, and every household
whose subregion cell is null gets zone "Unknown" in the zone column. -/
theorem c10_unknown_zone :
    categorise_melbourne_zone none = "Unknown" ∧
    (∀ s : String, categorise_melbourne_zone (some s) ≠ "Unknown") ∧
    (∀ s : String, categorise_melbourne_zone (some s) ∈
      (["Inner", "Middle", "Outer", "Regional", "Other"] : List String)) ∧
    (∀ (col : List (Option String)) (i : Nat) (h : i < col.length),
      col.get ⟨i, h⟩ = none →
      (zoneColumn col).get ⟨i, by simpa [zoneColumn] using h⟩ =
        "Unknown") := by
  refine ⟨rfl, ?_, ?_, ?_⟩
  · intro s
    simp only [categorise_melbourne_zone]
    split_ifs <;> decide
  · intro s
    simp only [categorise_melbourne_zone]
    split_ifs <;> decide
  · intro col i h hnone
    have hm : (zoneColumn col).get ⟨i, by simpa [zoneColumn] using h⟩ =
        categorise_melbourne_zone (col.get ⟨i, h⟩) := by
      simp [zoneColumn]
    rw [hm, hnone]
    rfl

/-- Claim C10 (witness): the second household of a two-household column has
a null subregion and gets zone "Unknown". -/
theorem c10_unknown_zone_witness :
    (zoneColumn [some "Inner Metro", none]).get ⟨1, by decide⟩ =
      "Unknown" :=
  c10_unknown_zone.2.2.2 [some "Inner Metro", none] 1 (by decide) rfl
